import Mathlib

set_option maxRecDepth 100000

/-!
Verification of the extent-calculation utility in
`src/scripts/calculate_extents.py`.

The script opens a raster dataset, determines its georeferencing
(affine geotransform, or ground-control points when the geotransform is
the default identity), reprojects the relevant points to WGS84 with an
axis-order fallback chain, and reduces to a north/south/east/west
bounding box, printed as JSON.

Modelling choices (shallow embedding):
- Coordinates are rationals (`ℚ`): the script performs only field
  arithmetic and order comparisons on its coordinate values.
- The external GDAL objects are abstracted at the exact API surface the
  script touches: a dataset record carries raster size, geotransform,
  GCP list and the classification of its source reference system as
  geographic; the two coordinate transformations built by the script
  (dataset CRS to WGS84 and GCP CRS to WGS84) are passed as parameters
  of type `TransformFn`.  `TransformPoint` returns a triple of which the
  script reads the first two components, and may raise; a `TransformFn`
  therefore returns `Except String (ℚ × ℚ)` holding the first two
  components, with `Except.error` modelling a raised exception.
  `TransformFn` functions are deterministic, matching a deterministic
  library call repeated on identical inputs.
- Python exception flow is modelled with `Except`: a `try` block with a
  handler becomes a `match`; an uncaught exception propagates as
  `Except.error`; the outermost handler of `get_extents` wraps any
  message, and the `__main__` block turns an error into stderr output
  and exit code 1.
-/

/-- A raised exception carries a message; a successful `TransformPoint`
call yields its first two returned components. -/
abbrev TransformFn : Type := ℚ → ℚ → Except String (ℚ × ℚ)

/-- A ground control point, of which the script reads only the
georeferenced coordinates `GCPX` and `GCPY` (lines 94-95). -/
structure GCP where
  GCPX : ℚ
  GCPY : ℚ
deriving DecidableEq

/-- The 6-parameter affine geotransform tuple, indexed 0..5 as in the
script (`geotransform[0]` is `gt0`, and so on). -/
structure GeoTransform where
  gt0 : ℚ
  gt1 : ℚ
  gt2 : ℚ
  gt3 : ℚ
  gt4 : ℚ
  gt5 : ℚ
deriving DecidableEq

/-- The slice of a GDAL dataset the script reads: raster dimensions,
geotransform, GCP list and whether the source spatial reference is
geographic (`src_srs.IsGeographic()`, line 51).  The projection text
itself is abstracted away: it only determines the `TransformFn` parameters
and this classification bit. -/
structure Dataset where
  rasterXSize : ℕ
  rasterYSize : ℕ
  geotransform : GeoTransform
  gcps : List GCP
  srcIsGeographic : Bool
deriving DecidableEq

/-- The result dictionary of `get_extents` (lines 189-194). -/
structure Extent where
  north : ℚ
  south : ℚ
  east : ℚ
  west : ℚ
deriving DecidableEq

deriving instance DecidableEq for Except

/-- Lines 68-72: the geotransform equals the library default
`(0.0, 1.0, 0.0, 0.0, 0.0, 1.0)`. -/
def is_default_geotransform (gt : GeoTransform) : Bool :=
  gt.gt0 == 0 && gt.gt1 == 1 && gt.gt2 == 0 && gt.gt3 == 0 &&
  gt.gt4 == 0 && gt.gt5 == 1

/-- The range check of lines 100 and 153:
`-90 <= lat <= 90 and -180 <= lon <= 180`. -/
def in_valid_range (lat lon : ℚ) : Bool :=
  -90 ≤ lat && lat ≤ 90 && -180 ≤ lon && lon ≤ 180

/-- Lines 94-113, one GCP: transform `(x, y)`; if the result is out of
range redo with swapped inputs (unvalidated); if a call raises, the
handler retries the swapped order and on a second failure appends the
raw `(x, y)`.  Always produces a point.  In the swapped calls the first
returned component is bound to `lat` and the second to `lon`. -/
def gcpPoint (t : TransformFn) (x y : ℚ) : ℚ × ℚ :=
  match t x y with
  | .ok (lon, lat) =>
    if in_valid_range lat lon then (lon, lat)
    else
      match t y x with
      | .ok (lat2, lon2) => (lon2, lat2)
      | .error _ =>
        -- the raise from line 104 lands in the handler of line 106
        match t y x with
        | .ok (lat3, lon3) => (lon3, lat3)
        | .error _ => (x, y)
  | .error _ =>
    match t y x with
    | .ok (lat2, lon2) => (lon2, lat2)
    | .error _ => (x, y)

/-- Lines 159-167: the exception handler of the geographic corner case.
Retry with swapped inputs; if that raises too, the last resort re-calls
the natural order, and a raise there is NOT caught (it propagates to
the outer handler of line 198). -/
def geoFallbackGeo (t : TransformFn) (x y : ℚ) : Except String (ℚ × ℚ) :=
  match t y x with
  | .ok (lat, lon) => .ok (lon, lat)
  | .error _ =>
    match t x y with
    | .ok (lon, lat) => .ok (lon, lat)
    | .error e => .error e

/-- Lines 149-167, one corner, geographic source reference: try the
natural order; if the result is out of range use the swapped order
(whose raise lands in the handler); if a call raises, run the handler
chain `geoFallbackGeo`. -/
def geoPointGeo (t : TransformFn) (x y : ℚ) : Except String (ℚ × ℚ) :=
  match t x y with
  | .ok (lon, lat) =>
    if in_valid_range lat lon then .ok (lon, lat)
    else
      match t y x with
      | .ok (lat2, lon2) => .ok (lon2, lat2)
      | .error _ => geoFallbackGeo t x y
  | .error _ => geoFallbackGeo t x y

/-- Lines 171-182, one corner, projected source reference: natural
order; on a raise retry swapped (components NOT swapped back); on a
second raise the last resort re-calls the natural order uncaught. -/
def geoPointProj (t : TransformFn) (x y : ℚ) : Except String (ℚ × ℚ) :=
  match t x y with
  | .ok (lon, lat) => .ok (lon, lat)
  | .error _ =>
    match t y x with
    | .ok (lon, lat) => .ok (lon, lat)
    | .error _ =>
      match t x y with
      | .ok (lon, lat) => .ok (lon, lat)
      | .error e => .error e

/-- Dispatch of line 145: geographic sources use the range-checking
chain, others the projected chain. -/
def cornerPoint (isGeo : Bool) (t : TransformFn) (x y : ℚ) :
    Except String (ℚ × ℚ) :=
  if isGeo then geoPointGeo t x y else geoPointProj t x y

/-- Lines 117-140: the four source-space corners synthesized from the
geotransform, after the min/max normalization swaps, in the order
top-left, top-right, bottom-right, bottom-left. -/
def branchBCorners (gt : GeoTransform) (xSize ySize : ℕ) :
    List (ℚ × ℚ) :=
  let x_origin := gt.gt0
  let pixel_width := gt.gt1
  let y_origin := gt.gt3
  let pixel_height := gt.gt5
  let x_min := x_origin
  let x_max := x_origin + (xSize : ℚ) * pixel_width
  let y_min := y_origin + (ySize : ℚ) * pixel_height
  let y_max := y_origin
  let p := if y_min > y_max then (y_max, y_min) else (y_min, y_max)
  let q := if x_min > x_max then (x_max, x_min) else (x_min, x_max)
  [(q.1, p.2), (q.2, p.2), (q.2, p.1), (q.1, p.1)]

/-- Python `max` over a list, raising `ValueError` on an empty one. -/
def pymax : List ℚ → Except String ℚ
  | [] => .error "max() arg is an empty sequence"
  | x :: xs => .ok (xs.foldl max x)

/-- Python `min` over a list, raising `ValueError` on an empty one. -/
def pymin : List ℚ → Except String ℚ
  | [] => .error "min() arg is an empty sequence"
  | x :: xs => .ok (xs.foldl min x)

/-- Lines 184-196: split the point list into longitudes and latitudes
and reduce to the extent dictionary. -/
def computeExtents (geo_corners : List (ℚ × ℚ)) : Except String Extent := do
  let lons := geo_corners.map Prod.fst
  let lats := geo_corners.map Prod.snd
  let north ← pymax lats
  let south ← pymin lats
  let east ← pymax lons
  let west ← pymin lons
  return ⟨north, south, east, west⟩

/-- The per-corner loop of lines 143-182: transform corners in order,
appending each produced point; the first uncaught raise aborts the
whole loop (and with it `get_extents`). -/
def transformAll (f : ℚ × ℚ → Except String (ℚ × ℚ)) :
    List (ℚ × ℚ) → Except String (List (ℚ × ℚ))
  | [] => .ok []
  | c :: rest => do
    let p ← f c
    let ps ← transformAll f rest
    return p :: ps

/-- The body of the `try` of `get_extents` after a successful open
(lines 32-196): Branch A when the geotransform is the default and the
GCP list is nonempty, Branch B (corner synthesis plus per-corner
reprojection) otherwise.  `transform` is the dataset-CRS-to-WGS84
transformation of line 46 and `gcp_transform` the GCP one of line 90. -/
def get_extents_body (transform gcp_transform : TransformFn) (ds : Dataset) :
    Except String Extent := do
  if is_default_geotransform ds.geotransform && !ds.gcps.isEmpty then
    computeExtents
      (ds.gcps.map (fun g => gcpPoint gcp_transform g.GCPX g.GCPY))
  else
    let geo_corners ←
      transformAll (fun c => cornerPoint ds.srcIsGeographic transform c.1 c.2)
        (branchBCorners ds.geotransform ds.rasterXSize ds.rasterYSize)
    computeExtents geo_corners

/-- `get_extents` (lines 19-199): `none` models `gdal.Open` returning a
null handle (line 29); any exception of the body is wrapped by the
handler of lines 198-199. -/
def get_extents (transform gcp_transform : TransformFn)
    (opened : Option Dataset) (dataset_path : String) :
    Except String Extent :=
  let body : Except String Extent :=
    match opened with
    | none => .error ("Unable to open dataset at " ++ dataset_path)
    | some ds => get_extents_body transform gcp_transform ds
  match body with
  | .ok e => .ok e
  | .error m => .error ("Error calculating extents: " ++ m)

/-- Observable outcome of one process invocation: exit code and the
lines printed to the two standard streams. -/
structure ProcResult where
  exitCode : ℕ
  stdout : List String
  stderr : List String
deriving DecidableEq

/-- Line 210: `json.dumps` of the extents dictionary in insertion
order.  Exact float rendering is irrelevant to the claims; `toString`
on `ℚ` stands in for the numeral rendering. -/
def json_dumps (e : Extent) : String :=
  "\x7b\"north\": " ++ toString e.north ++
  ", \"south\": " ++ toString e.south ++
  ", \"east\": " ++ toString e.east ++
  ", \"west\": " ++ toString e.west ++ "\x7d"

/-- The `__main__` block (lines 202-213): argument-count check, the
`get_extents` call, JSON on stdout on success, `ERROR: `-prefixed
stderr line and exit code 1 on any exception.  `openDataset` models
`gdal.Open` as a function of the path. -/
def main_process (transform gcp_transform : TransformFn)
    (openDataset : String → Option Dataset) (argv : List String) :
    ProcResult :=
  if argv.length ≠ 2 then
    ⟨1, [], ["Usage: python3 calculate_extents.py <dataset_path>"]⟩
  else
    let dataset_path := (argv.get? 1).getD ""
    match get_extents transform gcp_transform
        (openDataset dataset_path) dataset_path with
    | .ok e => ⟨0, [json_dumps e], []⟩
    | .error m => ⟨1, [], ["ERROR: " ++ m]⟩

/-! Concrete instances used by closed theorems and witnesses. -/

/-- The identity transformation: models `TransformPoint` on a source
CRS already equal to WGS84 (returns its inputs unchanged). -/
def identityT : TransformFn := fun x y => .ok (x, y)

/-- A transformation that raises on every input. -/
def raisingT : TransformFn := fun _ _ => .error "PROJ error"

/-- A transformation that succeeds but always lands far outside the
valid longitude/latitude range. -/
def outOfRangeT : TransformFn := fun _ _ => .ok (1000, 1000)

/-- A transformation succeeding with a fixed in-range point. -/
def originT : TransformFn := fun _ _ => .ok (0, 0)

/-- The example dataset of the spec: geotransform
`(10.0, 0.5, 0.0, 50.0, 0.0, -0.5)`, size 100 by 100, geographic
source reference. -/
def exampleDs : Dataset :=
  { rasterXSize := 100, rasterYSize := 100
    geotransform := ⟨10, 1/2, 0, 50, 0, -(1/2)⟩
    gcps := [], srcIsGeographic := true }

/-- A dataset with the projected classification and the same
non-default geotransform as `exampleDs`. -/
def exampleDsProj : Dataset :=
  { rasterXSize := 100, rasterYSize := 100
    geotransform := ⟨10, 1/2, 0, 50, 0, -(1/2)⟩
    gcps := [], srcIsGeographic := false }

/-- A dataset with the default identity geotransform and no GCPs:
opened fine, but carrying no real georeferencing. -/
def pixelOnlyDs : Dataset :=
  { rasterXSize := 4, rasterYSize := 3
    geotransform := ⟨0, 1, 0, 0, 0, 1⟩
    gcps := [], srcIsGeographic := true }

/-- A dataset with the default identity geotransform and one GCP. -/
def gcpDs : Dataset :=
  { rasterXSize := 5, rasterYSize := 5
    geotransform := ⟨0, 1, 0, 0, 0, 1⟩
    gcps := [⟨7, 8⟩], srcIsGeographic := true }

/-- A degenerate dataset of raster width 0 with a non-default
geotransform. -/
def zeroWidthDs : Dataset :=
  { rasterXSize := 0, rasterYSize := 3
    geotransform := ⟨10, 1/2, 0, 50, 0, -(1/2)⟩
    gcps := [], srcIsGeographic := true }

/-- An opener that fails on every path, modelling `gdal.Open`
returning a null handle. -/
def openNothing : String → Option Dataset := fun _ => none

/-! Helper lemmas shared by several claim proofs. -/

lemma le_foldl_max (xs : List ℚ) : ∀ x : ℚ, x ≤ xs.foldl max x := by
  induction xs with
  | nil => intro x; exact le_refl x
  | cons a l ih =>
    intro x
    exact le_trans (le_max_left x a) (ih (max x a))

lemma foldl_min_le (xs : List ℚ) : ∀ x : ℚ, xs.foldl min x ≤ x := by
  induction xs with
  | nil => intro x; exact le_refl x
  | cons a l ih =>
    intro x
    exact le_trans (ih (min x a)) (min_le_left x a)

/-- A successful reduce (lines 184-196) yields a box with
south ≤ north and west ≤ east. -/
lemma computeExtents_ok_ordered (l : List (ℚ × ℚ)) (e : Extent)
    (h : computeExtents l = .ok e) : e.south ≤ e.north ∧ e.west ≤ e.east := by
  cases l with
  | nil =>
    simp only [computeExtents, pymax, pymin, List.map_nil, bind,
      Except.bind] at h
    exact absurd h (by simp)
  | cons c rest =>
    simp only [computeExtents, pymax, pymin, List.map_cons, bind, Except.bind,
      pure, Except.pure, Except.ok.injEq] at h
    subst h
    constructor
    · exact le_trans (foldl_min_le _ _) (le_foldl_max _ _)
    · exact le_trans (foldl_min_le _ _) (le_foldl_max _ _)

/-- A nonempty point list always reduces successfully, to the expected
min/max values. -/
lemma computeExtents_cons (c : ℚ × ℚ) (rest : List (ℚ × ℚ)) :
    computeExtents (c :: rest) =
      .ok ⟨((c :: rest).map Prod.snd).foldl max c.2,
           ((c :: rest).map Prod.snd).foldl min c.2,
           ((c :: rest).map Prod.fst).foldl max c.1,
           ((c :: rest).map Prod.fst).foldl min c.1⟩ := by
  simp only [computeExtents, pymax, pymin, List.map_cons, bind, Except.bind,
    pure, Except.pure, List.foldl_cons, max_self, min_self]

/-- C3: for a dataset with geotransform (10.0, 0.5, 0.0, 50.0, 0.0, -0.5),
raster size 100 by 100 and a WGS84 source (so per-point reprojection is
the identity), `get_extents` returns exactly west = 10, east = 60,
north = 50, south = 0. -/
theorem c3_example_extent :
    get_extents identityT identityT (some exampleDs) "example.tif" =
      .ok ⟨50, 0, 60, 10⟩ := by
  with_unfolding_all decide

/-- C1: the claim is refuted by the code.  The per-point fallback chain
of the geotransform branch re-invokes the natural-order transform as
its last resort; with a (deterministic) transformation that raises on
both input orders, that re-invocation raises again, the exception
escapes the per-point chain uncaught, and `get_extents` aborts with an
error instead of producing a point — in the geographic and in the
projected sub-branch alike. -/
theorem c1_both_orders_raising_aborts :
    get_extents raisingT raisingT (some exampleDs) "example.tif" =
      .error "Error calculating extents: PROJ error" ∧
    get_extents raisingT raisingT (some exampleDsProj) "example.tif" =
      .error "Error calculating extents: PROJ error" := by
  with_unfolding_all decide

/-- C2 counterexample: a dataset that opens fine but carries no usable
georeferencing (default identity geotransform, empty GCP list) does
NOT make `get_extents` fail: the geotransform branch runs on the
default tuple, treats pixel coordinates as georeferenced, and returns
an extent. -/
theorem c2_no_georeferencing_still_returns :
    get_extents identityT identityT (some pixelOnlyDs) "pixel.tif" =
      .ok ⟨3, 0, 4, 0⟩ := by
  with_unfolding_all decide

/-- C10: in the GCP branch and in the geographic geotransform branch,
the swapped-order result is appended without any range validation, so
when both orderings land out of range the returned extent carries
coordinates outside [-90, 90] and [-180, 180]. -/
theorem c10_swapped_result_unvalidated :
    get_extents outOfRangeT outOfRangeT (some gcpDs) "gcp.tif" =
      .ok ⟨1000, 1000, 1000, 1000⟩ ∧
    get_extents outOfRangeT outOfRangeT (some exampleDs) "example.tif" =
      .ok ⟨1000, 1000, 1000, 1000⟩ ∧
    in_valid_range 1000 1000 = false := by
  with_unfolding_all decide

lemma sortPair (a b : ℚ) :
    (if a > b then (b, a) else (a, b)) = (min a b, max a b) := by
  split_ifs with h
  · simp [min_eq_right (le_of_lt h), max_eq_left (le_of_lt h)]
  · push_neg at h
    simp [min_eq_left h, max_eq_right h]

lemma branchBCorners_eq (gt : GeoTransform) (w h : ℕ) :
    branchBCorners gt w h =
      [(min gt.gt0 (gt.gt0 + (w : ℚ) * gt.gt1),
        max (gt.gt3 + (h : ℚ) * gt.gt5) gt.gt3),
       (max gt.gt0 (gt.gt0 + (w : ℚ) * gt.gt1),
        max (gt.gt3 + (h : ℚ) * gt.gt5) gt.gt3),
       (max gt.gt0 (gt.gt0 + (w : ℚ) * gt.gt1),
        min (gt.gt3 + (h : ℚ) * gt.gt5) gt.gt3),
       (min gt.gt0 (gt.gt0 + (w : ℚ) * gt.gt1),
        min (gt.gt3 + (h : ℚ) * gt.gt5) gt.gt3)] := by
  simp only [branchBCorners, sortPair]

/-- C5: for every non-default geotransform and raster size, the
source-space rectangle of Branch B is normalized (x_min â¤ x_max and
y_min â¤ y_max, the sorted pairs of the origin and origin-plus-extent
values), and the four synthesized corners are the axis-aligned corners
of that normalized rectangle, whatever the sign of pixel_height. -/
theorem c5_normalized_corners (gt : GeoTransform) (w h : ℕ)
    (hnd : is_default_geotransform gt = false) :
    min gt.gt0 (gt.gt0 + (w : ℚ) * gt.gt1) ≤
      max gt.gt0 (gt.gt0 + (w : ℚ) * gt.gt1) ∧
    min gt.gt3 (gt.gt3 + (h : ℚ) * gt.gt5) ≤
      max gt.gt3 (gt.gt3 + (h : ℚ) * gt.gt5) ∧
    branchBCorners gt w h =
      [(min gt.gt0 (gt.gt0 + (w : ℚ) * gt.gt1),
        max gt.gt3 (gt.gt3 + (h : ℚ) * gt.gt5)),
       (max gt.gt0 (gt.gt0 + (w : ℚ) * gt.gt1),
        max gt.gt3 (gt.gt3 + (h : ℚ) * gt.gt5)),
       (max gt.gt0 (gt.gt0 + (w : ℚ) * gt.gt1),
        min gt.gt3 (gt.gt3 + (h : ℚ) * gt.gt5)),
       (min gt.gt0 (gt.gt0 + (w : ℚ) * gt.gt1),
        min gt.gt3 (gt.gt3 + (h : ℚ) * gt.gt5))] := by
  refine ⟨min_le_max, min_le_max, ?_⟩
  rw [branchBCorners_eq, min_comm (gt.gt3 + (h : ℚ) * gt.gt5) gt.gt3,
    max_comm (gt.gt3 + (h : ℚ) * gt.gt5) gt.gt3]

/-- C4: for a geographic source reference and a corner point, when
the natural-order transform yields an out-of-range result the
swapped-order result is used for that point; and the final per-point
latitude lies in [-90, 90] and longitude in [-180, 180] whenever at
least one of the two input orderings yields an in-range result. -/
theorem c4_axis_order_fallback (t : TransformFn) (x y lon lat a b : ℚ)
    (h1 : t x y = .ok (lon, lat)) (h2 : t y x = .ok (a, b)) :
    (in_valid_range lat lon = false → geoPointGeo t x y = .ok (b, a)) ∧
    (in_valid_range lat lon = true ∨ in_valid_range a b = true →
      ∃ lo la, geoPointGeo t x y = .ok (lo, la) ∧
        in_valid_range la lo = true) := by
  constructor
  · intro hout
    simp [geoPointGeo, h1, h2, hout]
  · intro hin
    cases hval : in_valid_range lat lon with
    | true => exact ⟨lon, lat, by simp [geoPointGeo, h1, hval], hval⟩
    | false =>
      have hb : in_valid_range a b = true := by
        rcases hin with hl | hr
        · rw [hval] at hl; exact absurd hl (by simp)
        · exact hr
      exact ⟨b, a, by simp [geoPointGeo, h1, h2, hval], hb⟩

/-- C7: every successful call to `get_extents` returns an extent with
north â¥ south and east â¥ west, the max/min reduction over the
produced nonempty point list. -/
theorem c7_success_box_ordered (t g : TransformFn) (o : Option Dataset)
    (path : String) (e : Extent)
    (h : get_extents t g o path = .ok e) :
    e.south ≤ e.north ∧ e.west ≤ e.east := by
  cases o with
  | none => simp [get_extents] at h
  | some ds =>
    rw [show get_extents t g (some ds) path =
        (match get_extents_body t g ds with
         | Except.ok e => Except.ok e
         | Except.error m =>
             Except.error ("Error calculating extents: " ++ m)) from rfl] at h
    cases hb : get_extents_body t g ds with
    | error m => rw [hb] at h; simp at h
    | ok e2 =>
      rw [hb] at h
      simp at h
      subst h
      unfold get_extents_body at hb
      split at hb
      · exact computeExtents_ok_ordered _ _ hb
      · cases hm : transformAll
            (fun c => cornerPoint ds.srcIsGeographic t c.1 c.2)
            (branchBCorners ds.geotransform ds.rasterXSize
              ds.rasterYSize) with
        | error m => rw [hm] at hb; simp [bind, Except.bind] at hb
        | ok gc =>
          rw [hm] at hb
          simp [bind, Except.bind] at hb
          exact computeExtents_ok_ordered _ _ hb

/-- C8: for a path that does not resolve to an openable dataset the
process exits with code 1, writes nothing to standard output, and
prints an `ERROR: `-prefixed message to standard error; and on any
fatal failure of `get_extents` no partial output reaches standard
output. -/
theorem c8_open_failure_reporting (t g : TransformFn)
    (op : String → Option Dataset) (prog path : String)
    (hopen : op path = none) :
    (main_process t g op [prog, path]).exitCode = 1 ∧
    (main_process t g op [prog, path]).stdout = [] ∧
    (main_process t g op [prog, path]).stderr =
      ["ERROR: Error calculating extents: Unable to open dataset at "
        ++ path] ∧
    (∀ argv m, get_extents t g (op ((argv.get? 1).getD ""))
        ((argv.get? 1).getD "") = .error m →
      (main_process t g op argv).stdout = [] ∧
      (main_process t g op argv).exitCode = 1) := by
  have hw : get_extents t g (op path) path =
      .error ("Error calculating extents: " ++
        ("Unable to open dataset at " ++ path)) := by
    rw [hopen]; rfl
  refine ⟨?_, ?_, ?_, ?_⟩
  · simp [main_process, hw]
  · simp [main_process, hw]
  · simp [main_process, hw]
    rw [← String.append_assoc, ← String.append_assoc]
    rfl
  · intro argv m hm
    by_cases hlen : argv.length = 2
    · simp only [main_process, if_neg (not_not_intro hlen)]
      rw [hm]
      exact ⟨rfl, rfl⟩
    · simp [main_process, hlen]

lemma cornerPoint_ok_of_inRange (isGeo : Bool) (t : TransformFn) (x y : ℚ)
    (ht : ∀ u v : ℚ, ∃ lon lat, t u v = .ok (lon, lat) ∧
      in_valid_range lat lon = true) :
    ∃ p, cornerPoint isGeo t x y = .ok p := by
  obtain ⟨lon, lat, hok, hin⟩ := ht x y
  cases isGeo with
  | false => exact ⟨(lon, lat), by simp [cornerPoint, geoPointProj, hok]⟩
  | true => exact ⟨(lon, lat), by simp [cornerPoint, geoPointGeo, hok, hin]⟩

lemma transformAll_all_ok (f : ℚ × ℚ → Except String (ℚ × ℚ)) :
    ∀ l : List (ℚ × ℚ), (∀ c ∈ l, ∃ p, f c = .ok p) →
      ∃ gc, transformAll f l = .ok gc ∧ gc.length = l.length := by
  intro l
  induction l with
  | nil => exact fun _ => ⟨[], rfl, rfl⟩
  | cons c rest ih =>
    intro hall
    obtain ⟨p, hp⟩ := hall c (by simp)
    obtain ⟨gc, hgc, hlen⟩ := ih (fun d hd => hall d (by simp [hd]))
    refine ⟨p :: gc, ?_, by simp [hlen]⟩
    simp [transformAll, hp, hgc, bind, Except.bind, pure, Except.pure]

lemma get_extents_unfold (t g : TransformFn) (ds : Dataset) (path : String) :
    get_extents t g (some ds) path =
      match get_extents_body t g ds with
      | Except.ok e => Except.ok e
      | Except.error m =>
          Except.error ("Error calculating extents: " ++ m) := rfl

lemma branchB_returns (t g : TransformFn) (ds : Dataset) (path : String)
    (hc : (is_default_geotransform ds.geotransform && !ds.gcps.isEmpty)
      = false)
    (ht : ∀ u v : ℚ, ∃ lon lat, t u v = .ok (lon, lat) ∧
      in_valid_range lat lon = true) :
    ∃ e, get_extents t g (some ds) path = .ok e := by
  obtain ⟨gc, hgc, hlen⟩ :=
    transformAll_all_ok (fun c => cornerPoint ds.srcIsGeographic t c.1 c.2)
      (branchBCorners ds.geotransform ds.rasterXSize ds.rasterYSize)
      (fun c _ => cornerPoint_ok_of_inRange ds.srcIsGeographic t c.1 c.2 ht)
  have hb : get_extents_body t g ds = computeExtents gc := by
    simp only [get_extents_body, hc, Bool.false_eq_true, if_false, hgc,
      bind, Except.bind]
  cases gc with
  | nil =>
    rw [branchBCorners_eq] at hlen
    simp at hlen
  | cons c rest =>
    exact ⟨_, by rw [get_extents_unfold, hb, computeExtents_cons]⟩

/-- C2 amended: when the dataset opens but carries no usable
georeferencing (default identity geotransform, empty GCP list),
`get_extents` does NOT fail: it runs the geotransform branch on the
default tuple, treating pixel coordinates as georeferenced, and
returns an extent whenever the per-point reprojection succeeds. -/
theorem c2_amended_no_georef_returns (ds : Dataset) (t g : TransformFn)
    (path : String)
    (hd : is_default_geotransform ds.geotransform = true)
    (hg : ds.gcps = [])
    (ht : ∀ u v : ℚ, ∃ lon lat, t u v = .ok (lon, lat) ∧
      in_valid_range lat lon = true) :
    ∃ e, get_extents t g (some ds) path = .ok e := by
  refine branchB_returns t g ds path ?_ ht
  simp [hg]

/-- C9: a dataset with a non-default geotransform and raster width or
height 0 still synthesizes four corners, degenerate (coincident) along
the zero axis, and `get_extents` returns an extent without raising
(given per-point reprojection succeeds, as it cannot be the source of
a raise when the transform succeeds in range). -/
theorem c9_zero_size_degenerate (ds : Dataset) (t g : TransformFn)
    (path : String)
    (hnd : is_default_geotransform ds.geotransform = false)
    (hz : ds.rasterXSize = 0 ∨ ds.rasterYSize = 0)
    (ht : ∀ u v : ℚ, ∃ lon lat, t u v = .ok (lon, lat) ∧
      in_valid_range lat lon = true) :
    (branchBCorners ds.geotransform ds.rasterXSize ds.rasterYSize).length
        = 4 ∧
    (ds.rasterXSize = 0 →
      ∀ c ∈ branchBCorners ds.geotransform ds.rasterXSize ds.rasterYSize,
        c.1 = ds.geotransform.gt0) ∧
    (ds.rasterYSize = 0 →
      ∀ c ∈ branchBCorners ds.geotransform ds.rasterXSize ds.rasterYSize,
        c.2 = ds.geotransform.gt3) ∧
    ∃ e, get_extents t g (some ds) path = .ok e := by
  refine ⟨?_, ?_, ?_, branchB_returns t g ds path (by simp [hnd]) ht⟩
  · rw [branchBCorners_eq]; rfl
  · intro hx c hc
    rw [branchBCorners_eq, hx] at hc
    simp only [Nat.cast_zero, zero_mul, add_zero, min_self, max_self,
      List.mem_cons, List.not_mem_nil, or_false] at hc
    rcases hc with h | h | h | h <;> rw [h]
  · intro hy c hc
    rw [branchBCorners_eq, hy] at hc
    simp only [Nat.cast_zero, zero_mul, add_zero, min_self, max_self,
      List.mem_cons, List.not_mem_nil, or_false] at hc
    rcases hc with h | h | h | h <;> rw [h]

/-- C6: for a default identity geotransform and a nonempty GCP list,
the returned extent is the min/max reduction over the reprojected
points derived from the GCPs, one point per GCP, with no rectangle
corners synthesized from the geotransform. -/
theorem c6_gcp_branch_minmax (t g : TransformFn) (ds : Dataset)
    (path : String)
    (hd : is_default_geotransform ds.geotransform = true)
    (hg : ds.gcps ≠ []) :
    ∃ e, get_extents t g (some ds) path = .ok e ∧
      (ds.gcps.map (fun q => gcpPoint g q.GCPX q.GCPY)).length
          = ds.gcps.length ∧
      pymax ((ds.gcps.map (fun q => gcpPoint g q.GCPX q.GCPY)).map
          Prod.snd) = .ok e.north ∧
      pymin ((ds.gcps.map (fun q => gcpPoint g q.GCPX q.GCPY)).map
          Prod.snd) = .ok e.south ∧
      pymax ((ds.gcps.map (fun q => gcpPoint g q.GCPX q.GCPY)).map
          Prod.fst) = .ok e.east ∧
      pymin ((ds.gcps.map (fun q => gcpPoint g q.GCPX q.GCPY)).map
          Prod.fst) = .ok e.west := by
  cases hgl : ds.gcps with
  | nil => exact absurd hgl hg
  | cons q rest =>
    have hb : get_extents_body t g ds =
        computeExtents ((q :: rest).map
          (fun r => gcpPoint g r.GCPX r.GCPY)) := by
      simp only [get_extents_body, hd, hgl, List.isEmpty_cons,
        Bool.not_false, Bool.and_self, if_true]
    rw [List.map_cons] at hb
    rw [computeExtents_cons] at hb
    refine ⟨_, by rw [get_extents_unfold, hb], ?_, ?_, ?_, ?_, ?_⟩
    · simp [hgl]
    · simp [pymax, List.foldl_cons, max_self]
    · simp [pymin, List.foldl_cons, min_self]
    · simp [pymax, List.foldl_cons, max_self]
    · simp [pymin, List.foldl_cons, min_self]

theorem c4_axis_order_fallback_witness :
    (in_valid_range 1000 1000 = false →
      geoPointGeo outOfRangeT 1 2 = .ok (1000, 1000)) ∧
    (in_valid_range 1000 1000 = true ∨ in_valid_range 1000 1000 = true →
      ∃ lo la, geoPointGeo outOfRangeT 1 2 = .ok (lo, la) ∧
        in_valid_range la lo = true) :=
  c4_axis_order_fallback outOfRangeT 1 2 1000 1000 1000 1000 rfl rfl

theorem c5_normalized_corners_witness :
    min exampleDs.geotransform.gt0 (exampleDs.geotransform.gt0 +
        ((100 : ℕ) : ℚ) * exampleDs.geotransform.gt1) ≤
      max exampleDs.geotransform.gt0 (exampleDs.geotransform.gt0 +
        ((100 : ℕ) : ℚ) * exampleDs.geotransform.gt1) ∧
    min exampleDs.geotransform.gt3 (exampleDs.geotransform.gt3 +
        ((100 : ℕ) : ℚ) * exampleDs.geotransform.gt5) ≤
      max exampleDs.geotransform.gt3 (exampleDs.geotransform.gt3 +
        ((100 : ℕ) : ℚ) * exampleDs.geotransform.gt5) ∧
    branchBCorners exampleDs.geotransform 100 100 =
      [(min exampleDs.geotransform.gt0 (exampleDs.geotransform.gt0 +
          ((100 : ℕ) : ℚ) * exampleDs.geotransform.gt1),
        max exampleDs.geotransform.gt3 (exampleDs.geotransform.gt3 +
          ((100 : ℕ) : ℚ) * exampleDs.geotransform.gt5)),
       (max exampleDs.geotransform.gt0 (exampleDs.geotransform.gt0 +
          ((100 : ℕ) : ℚ) * exampleDs.geotransform.gt1),
        max exampleDs.geotransform.gt3 (exampleDs.geotransform.gt3 +
          ((100 : ℕ) : ℚ) * exampleDs.geotransform.gt5)),
       (max exampleDs.geotransform.gt0 (exampleDs.geotransform.gt0 +
          ((100 : ℕ) : ℚ) * exampleDs.geotransform.gt1),
        min exampleDs.geotransform.gt3 (exampleDs.geotransform.gt3 +
          ((100 : ℕ) : ℚ) * exampleDs.geotransform.gt5)),
       (min exampleDs.geotransform.gt0 (exampleDs.geotransform.gt0 +
          ((100 : ℕ) : ℚ) * exampleDs.geotransform.gt1),
        min exampleDs.geotransform.gt3 (exampleDs.geotransform.gt3 +
          ((100 : ℕ) : ℚ) * exampleDs.geotransform.gt5))] :=
  c5_normalized_corners exampleDs.geotransform 100 100
    (by with_unfolding_all decide)

theorem c7_success_box_ordered_witness :
    (⟨50, 0, 60, 10⟩ : Extent).south ≤ (⟨50, 0, 60, 10⟩ : Extent).north ∧
    (⟨50, 0, 60, 10⟩ : Extent).west ≤ (⟨50, 0, 60, 10⟩ : Extent).east :=
  c7_success_box_ordered identityT identityT (some exampleDs)
    "example.tif" ⟨50, 0, 60, 10⟩ (by with_unfolding_all decide)

theorem c8_open_failure_reporting_witness :
    (main_process identityT identityT openNothing
      ["calculate_extents.py", "missing.tif"]).exitCode = 1 ∧
    (main_process identityT identityT openNothing
      ["calculate_extents.py", "missing.tif"]).stdout = [] ∧
    (main_process identityT identityT openNothing
      ["calculate_extents.py", "missing.tif"]).stderr =
      ["ERROR: Error calculating extents: Unable to open dataset at "
        ++ "missing.tif"] :=
  ⟨(c8_open_failure_reporting identityT identityT openNothing
      "calculate_extents.py" "missing.tif" rfl).1,
   (c8_open_failure_reporting identityT identityT openNothing
      "calculate_extents.py" "missing.tif" rfl).2.1,
   (c8_open_failure_reporting identityT identityT openNothing
      "calculate_extents.py" "missing.tif" rfl).2.2.1⟩

theorem c2_amended_no_georef_returns_witness :
    ∃ e, get_extents originT originT (some pixelOnlyDs) "pixel.tif" =
      .ok e :=
  c2_amended_no_georef_returns pixelOnlyDs originT originT "pixel.tif"
    (by with_unfolding_all decide) rfl
    (fun u v => ⟨0, 0, rfl, by with_unfolding_all decide⟩)

theorem c9_zero_size_degenerate_witness :
    (branchBCorners zeroWidthDs.geotransform zeroWidthDs.rasterXSize
        zeroWidthDs.rasterYSize).length = 4 ∧
    ∃ e, get_extents originT originT (some zeroWidthDs) "zero.tif" =
      .ok e :=
  ⟨(c9_zero_size_degenerate zeroWidthDs originT originT "zero.tif"
      (by with_unfolding_all decide) (Or.inl rfl)
      (fun u v => ⟨0, 0, rfl, by with_unfolding_all decide⟩)).1,
   (c9_zero_size_degenerate zeroWidthDs originT originT "zero.tif"
      (by with_unfolding_all decide) (Or.inl rfl)
      (fun u v => ⟨0, 0, rfl, by with_unfolding_all decide⟩)).2.2.2⟩

theorem c6_gcp_branch_minmax_witness :
    ∃ e, get_extents identityT identityT (some gcpDs) "gcp.tif" =
        .ok e ∧
      (gcpDs.gcps.map (fun q => gcpPoint identityT q.GCPX q.GCPY)).length
          = gcpDs.gcps.length ∧
      pymax ((gcpDs.gcps.map (fun q => gcpPoint identityT q.GCPX
          q.GCPY)).map Prod.snd) = .ok e.north ∧
      pymin ((gcpDs.gcps.map (fun q => gcpPoint identityT q.GCPX
          q.GCPY)).map Prod.snd) = .ok e.south ∧
      pymax ((gcpDs.gcps.map (fun q => gcpPoint identityT q.GCPX
          q.GCPY)).map Prod.fst) = .ok e.east ∧
      pymin ((gcpDs.gcps.map (fun q => gcpPoint identityT q.GCPX
          q.GCPY)).map Prod.fst) = .ok e.west :=
  c6_gcp_branch_minmax identityT identityT gcpDs "gcp.tif"
    (by with_unfolding_all decide) (by with_unfolding_all decide)
